import Mathlib

/-
Verification of the experiment-execution pipeline of
`gvallee/container_validation_tool` (package `experiments`,
file `pkg/experiments/experiments.go`).

The Go code is shallowly embedded: the structures below mirror the Go
structures field for field (restricted to the fields this package reads or
writes), and the external collaborators (filesystem checks, `os.MkdirAll`,
`builder.Load`, `builder.InstallOnHost`, `container.Create`,
`container.PullContainerImage`, `launcher.Run`, `launcher.SaveErrorDetails`,
`processOutput`, `jm.Detect`, `sy.GetImageURL`,
`container.GetContainerDefaultName`, `filepath.Join`, `sys.IsPersistent`)
are modelled as an oracle record `Env`: each field gives the value that the
corresponding external call returns during the run under consideration.
Go `error` values are modelled as `Option String` (`none` = nil error,
`some msg` = an error whose `%s`-formatting is `msg`).
-/

set_option autoImplicit false

namespace experiments

/-- Mirror of `implem.Info` (package `go_hpc_jobmgr/pkg/implem`):
the fields this file uses are `ID`, `Version` and `URL`. -/
structure ImplemInfo where
  ID : String
  Version : String
  URL : String
  deriving DecidableEq

/-- Mirror of `buildenv.Info` (package `singularity-mpi/pkg/buildenv`):
the fields this file uses are `BuildDir`, `ScratchDir` and `InstallDir`. -/
structure BuildEnvInfo where
  BuildDir : String
  ScratchDir : String
  InstallDir : String
  deriving DecidableEq

/-- Mirror of `container.Config` (package `singularity-mpi/pkg/container`):
the fields this file uses. -/
structure ContainerInfo where
  Name : String
  Path : String
  Model : String
  URL : String
  BuildDir : String
  InstallDir : String
  Distro : String
  deriving DecidableEq

/-- Mirror of `app.Info` (package `go_hpc_jobmgr/pkg/app`): only `Name`
is used by this file. -/
structure AppInfo where
  Name : String
  deriving DecidableEq

/-- Mirror of `advexec.Result` (package `go_exec/pkg/advexec`): an execution
result carrying an error (`none` = nil), stdout and stderr. -/
structure ExecResult where
  Err : Option String
  Stdout : String
  Stderr : String
  deriving DecidableEq

namespace results

/-- Mirror of `results.Result` (package `go_exec/pkg/results`): the durable
outcome of one experiment.  The fields this file uses are `Pass`, `Note`,
`HostMPI.Version` and `ContainerMPI.Version`. -/
structure Result where
  Pass : Bool
  Note : String
  HostMPI : ImplemInfo
  ContainerMPI : ImplemInfo
  deriving DecidableEq

end results

/-- Mirror of `experiments.ContainerConfig` (the structure defined in
`pkg/experiments/experiments.go` itself). -/
structure ContainerConfig where
  HostMPI : ImplemInfo
  ContainerMPI : ImplemInfo
  Container : ContainerInfo
  HostBuildEnv : BuildEnvInfo
  ContainerBuildEnv : BuildEnvInfo
  App : AppInfo
  Result : results.Result
  deriving DecidableEq

/-- Mirror of `sys.Config` (package `singularity-mpi/pkg/sys`): the fields
this file uses (`Persistent`, `Nopriv`, `NetPipe`, `IMB`, `OutputFile`). -/
structure SysConfig where
  Persistent : String
  Nopriv : Bool
  NetPipe : Bool
  IMB : Bool
  OutputFile : String
  deriving DecidableEq

/-- Mirror of `sy.MPIToolConfig` (package `singularity-mpi/pkg/sy`): only
`BuildPrivilege` is used by this file. -/
structure MPIToolConfig where
  BuildPrivilege : Bool
  deriving DecidableEq

/-- Mirror of `mpi.Config` (package `go_hpc_jobmgr/pkg/mpi`): the fields
this file uses (`Implem`, `Buildenv`, `Container`). -/
structure MpiConfig where
  Implem : ImplemInfo
  Buildenv : BuildEnvInfo
  Container : ContainerInfo
  deriving DecidableEq

/-- Go zero value of `advexec.Result` (`var res advexec.Result`). -/
def zeroExec : ExecResult := { Err := none, Stdout := "", Stderr := "" }

/-- Go zero value of `implem.Info`. -/
def zeroImplem : ImplemInfo := { ID := "", Version := "", URL := "" }

/-- Go zero value of `container.Config`. -/
def zeroContainerInfo : ContainerInfo :=
  { Name := "", Path := "", Model := "", URL := "", BuildDir := "",
    InstallDir := "", Distro := "" }

/-- Go zero value of `results.Result` (`var expRes results.Result`). -/
def zeroResult : results.Result :=
  { Pass := false, Note := "", HostMPI := zeroImplem, ContainerMPI := zeroImplem }

/-- The external constant `container.HybridModel`.  Its concrete value is
irrelevant to every claim (it is only passed to the external
`GetContainerDefaultName` and stored in `Container.Model`); the spec's
glossary names the packaging model "hybrid". -/
def HybridModel : String := "hybrid"

/-- Go's `fmt` rendering of an `error` value under the `%s` verb: a nil
error prints as `%!s(<nil>)`, a non-nil error prints its message. -/
def goErrFmt : Option String → String
  | none => "%!s(<nil>)"
  | some s => s

/-- Oracle record for the external collaborators: each field is the value
the corresponding external call returns during the run under
consideration.  Every collaborator is called at most once per run with any
given argument, so one returned value per field suffices. -/
structure Env where
  /-- `util.PathExists` -/
  pathExists : String → Bool
  /-- `util.FileExists` -/
  fileExists : String → Bool
  /-- `os.MkdirAll dir 0755` (the error it returns; `none` = success) -/
  mkdirAll : String → Option String
  /-- `filepath.Join` -/
  filepathJoin : String → String → String
  /-- `container.GetContainerDefaultName distro mpiID mpiVersion appName model` -/
  getContainerDefaultName : String → String → String → String → String → String
  /-- `sy.GetImageURL implem sysCfg` -/
  getImageURL : ImplemInfo → SysConfig → String
  /-- `builder.Load implem` (the error it returns; `none` = a builder was found) -/
  loadBuilder : ImplemInfo → Option String
  /-- `b.InstallOnHost` -/
  installOnHost : ExecResult
  /-- `b.UninstallHost` (run by the deferred cleanup) -/
  uninstallHost : ExecResult
  /-- `b.GenerateDeffile` (error; `none` = success) -/
  generateDeffile : Option String
  /-- `container.Create` (error; `none` = success) -/
  createImage : Option String
  /-- `container.PullContainerImage` (error; `none` = success) -/
  pullImage : Option String
  /-- `launcher.SaveErrorDetails` (error; `none` = success) -/
  saveErrorDetails : Option String
  /-- first return value of `launcher.Run` -/
  launcherOutcome : results.Result
  /-- second return value of `launcher.Run` -/
  launcherExec : ExecResult
  /-- error returned by `processOutput` (defined elsewhere in this package;
  per the spec it analyzes the execution result and mutates the outcome's
  note/derived fields, returning an error on failure) -/
  processOutputErr : Option String
  /-- the note `processOutput` writes into the outcome -/
  processOutputNote : String
  /-- `sys.IsPersistent sysCfg` -/
  isPersistent : Bool

/-- The `if !util.PathExists(dir) { err := os.MkdirAll(dir, 0755) ... }`
pattern of `setExperimentCfg`: returns the `MkdirAll` error when the
directory was absent and its creation failed, `none` otherwise
(pre-existing directories are only logged). -/
def ensureDir (env : Env) (dir : String) : Option String :=
  if env.pathExists dir then none else env.mkdirAll dir

/-- Embedding of `setExperimentCfg` (experiments.go lines 93-162).
Returns the `(myHostMPICfg, myContainerMPICfg)` pair, or the error message
on a directory-creation failure.

Note on line 121 of the Go source: `exp.Container.Path = myContainerMPICfg.Container.Path`
writes into the value parameter `exp` (a copy), so the write is lost when
the function returns; it therefore has no counterpart in this embedding's
result. -/
def setExperimentCfg (env : Env) (exp : ContainerConfig) (sysCfg : SysConfig) :
    Except String (MpiConfig × MpiConfig) :=
  let myHostMPICfg : MpiConfig :=
    { Implem := exp.HostMPI, Buildenv := exp.HostBuildEnv,
      Container := zeroContainerInfo }
  match ensureDir env myHostMPICfg.Buildenv.BuildDir with
  | some e => .error ("failed to create " ++ myHostMPICfg.Buildenv.BuildDir ++ ": " ++ e)
  | none =>
  match ensureDir env myHostMPICfg.Buildenv.ScratchDir with
  | some e => .error ("failed to create " ++ myHostMPICfg.Buildenv.ScratchDir ++ ": " ++ e)
  | none =>
  let name : String :=
    env.getContainerDefaultName exp.Container.Distro exp.ContainerMPI.ID
      exp.ContainerMPI.Version exp.App.Name HybridModel ++ ".sif"
  let myContainerMPICfg : MpiConfig :=
    { Implem := exp.ContainerMPI
      Buildenv := exp.ContainerBuildEnv
      Container :=
        { Name := name
          Path := env.filepathJoin exp.ContainerBuildEnv.InstallDir name
          Model := HybridModel
          URL := env.getImageURL exp.ContainerMPI sysCfg
          BuildDir := exp.ContainerBuildEnv.BuildDir
          InstallDir := exp.ContainerBuildEnv.InstallDir
          Distro := exp.Container.Distro } }
  match ensureDir env myContainerMPICfg.Buildenv.BuildDir with
  | some e => .error ("failed to create " ++ myContainerMPICfg.Buildenv.BuildDir ++ ": " ++ e)
  | none =>
  match ensureDir env myContainerMPICfg.Buildenv.ScratchDir with
  | some e => .error ("failed to create " ++ myContainerMPICfg.Buildenv.ScratchDir ++ ": " ++ e)
  | none => .ok (myHostMPICfg, myContainerMPICfg)

/-- Embedding of `Pruning` (experiments.go lines 308-328).  The Go inner
loop sets `found` and `break`s on the first result whose host version and
container version both equal the experiment's; that is exactly
`List.any`. -/
def Pruning : List ContainerConfig → List results.Result → List ContainerConfig
  | [], _ => []
  | experiment :: rest, existingResults =>
    if existingResults.any (fun result =>
        experiment.HostMPI.Version == result.HostMPI.Version
          && experiment.ContainerMPI.Version == result.ContainerMPI.Version) then
      Pruning rest existingResults
    else
      experiment :: Pruning rest existingResults

/-- Embedding of `GetOutputFilename` (experiments.go lines 263-275): it
mutates `sysCfg.OutputFile` through the pointer and returns the (always
nil) error; the embedding returns the updated settings together with that
error. -/
def GetOutputFilename (mpiImplem : String) (sysCfg : SysConfig) :
    SysConfig × Option String :=
  let s1 := { sysCfg with OutputFile := mpiImplem ++ "-init-results.txt" }
  let s2 := if s1.NetPipe then { s1 with OutputFile := mpiImplem ++ "-netpipe-results.txt" } else s1
  let s3 := if s2.IMB then { s2 with OutputFile := mpiImplem ++ "-imb-results.txt" } else s2
  (s3, none)

/-- Embedding of `GetMPIImplemFromExperiments` (experiments.go lines
56-66).  Go tests `len(experiments) == 0` and otherwise returns
`&experiments[0].HostMPI`; on lists, `len l == 0` holds exactly for `[]`,
and the embedding returns the pointed-to value. -/
def GetMPIImplemFromExperiments (experiments : List ContainerConfig) :
    Except String ImplemInfo :=
  match experiments with
  | [] => .error "no experiment"
  | e :: _ => .ok e.HostMPI

/-- Decidable substring test used to formalise "the message wraps /
contains this text". -/
def substrB (needle hay : String) : Bool :=
  decide (needle.toList <:+: hay.toList)

/-- Result of the embedded `createMPIContainer` (experiments.go lines
278-305): the `advexec.Result` it returns plus how many times it performed
each external action (`b.GenerateDeffile`, `container.Create`). -/
structure MPIContainerOut where
  res : ExecResult
  deffileCalls : Nat
  createImageCalls : Nat
  deriving DecidableEq

/-- Embedding of `createMPIContainer` (experiments.go lines 278-305).
On a `GenerateDeffile` or `container.Create` failure the raw error stays in
`res.Err` and the wrapped message goes to `res.Stderr` (lines 292, 299). -/
def createMPIContainer (env : Env) (appInfo : AppInfo) (mpiCfg : MpiConfig)
    (benv : BuildEnvInfo) (sysCfg : SysConfig) : MPIContainerOut :=
  match env.loadBuilder mpiCfg.Implem with
  | some e =>
    { res := { Err := some e, Stdout := "", Stderr := "" },
      deffileCalls := 0, createImageCalls := 0 }
  | none =>
    match env.generateDeffile with
    | some e =>
      { res := { Err := some e, Stdout := "",
                 Stderr := "failed to generate Singularity definition file: " ++ e },
        deffileCalls := 1, createImageCalls := 0 }
    | none =>
      match env.createImage with
      | some e =>
        { res := { Err := some e, Stdout := "",
                   Stderr := "failed to create container image: " ++ e },
          deffileCalls := 1, createImageCalls := 1 }
      | none =>
        { res := zeroExec, deffileCalls := 1, createImageCalls := 1 }

/-- Result of the embedded `createNewContainer` (experiments.go lines
68-91): the `advexec.Result` it returns plus call counters
(`mpiContainerCalls` counts invocations of `createMPIContainer`, i.e.
image-build attempts; `saveCalls` counts `launcher.SaveErrorDetails`
invocations it performed). -/
structure NewContainerOut where
  res : ExecResult
  mpiContainerCalls : Nat
  deffileCalls : Nat
  createImageCalls : Nat
  saveCalls : Nat
  deriving DecidableEq

/-- Embedding of `createNewContainer` (experiments.go lines 68-91).
When `sysCfg.Persistent` is non-empty and the (derived) container path
already exists as a file, it skips and returns the zero result.  On a
build failure it saves error details; if that save fails the error becomes
the save-failure message (line 83), otherwise the build error is wrapped as
"failed to create container: ..." (line 86). -/
def createNewContainer (env : Env) (myContainerMPICfg : MpiConfig)
    (exp : ContainerConfig) (sysCfg : SysConfig) : NewContainerOut :=
  if sysCfg.Persistent != "" && env.fileExists myContainerMPICfg.Container.Path then
    { res := zeroExec, mpiContainerCalls := 0, deffileCalls := 0,
      createImageCalls := 0, saveCalls := 0 }
  else
    let c := createMPIContainer env exp.App myContainerMPICfg exp.ContainerBuildEnv sysCfg
    match c.res.Err with
    | some e =>
      match env.saveErrorDetails with
      | some es =>
        { res := { c.res with Err := some ("failed to save error details: " ++ es) },
          mpiContainerCalls := 1, deffileCalls := c.deffileCalls,
          createImageCalls := c.createImageCalls, saveCalls := 1 }
      | none =>
        { res := { c.res with Err := some ("failed to create container: " ++ e) },
          mpiContainerCalls := 1, deffileCalls := c.deffileCalls,
          createImageCalls := c.createImageCalls, saveCalls := 1 }
    | none =>
      { res := c.res, mpiContainerCalls := 1, deffileCalls := c.deffileCalls,
        createImageCalls := c.createImageCalls, saveCalls := 0 }

/-- The `launcher.SaveErrorDetails` pattern of `Run` (lines 191-194 and
237-240): save the details of `r`; when the save itself fails, replace the
error with the save-failure message, otherwise keep `r` unchanged. -/
def saveWrap (env : Env) (r : ExecResult) : ExecResult :=
  match env.saveErrorDetails with
  | some es => { r with Err := some ("failed to save error details: " ++ es) }
  | none => r

/-- Observable result of one embedded `Run`: the three returned values
(`flag` is Go's first boolean return) plus how many times each external
action was performed.  `buildCalls` counts invocations of
`createMPIContainer` (image-build attempts), `pullCalls` of
`container.PullContainerImage`, `launchCalls` of `launcher.Run`,
`analyzeCalls` of `processOutput`, `saveCalls` of
`launcher.SaveErrorDetails`, `uninstallCalls` of the deferred
`b.UninstallHost`. -/
structure RunOut where
  flag : Bool
  expRes : results.Result
  execRes : ExecResult
  installCalls : Nat
  buildCalls : Nat
  deffileCalls : Nat
  createImageCalls : Nat
  pullCalls : Nat
  launchCalls : Nat
  analyzeCalls : Nat
  saveCalls : Nat
  uninstallCalls : Nat
  deriving DecidableEq

/-- The tail of the embedded `Run` from `launcher.Run` onward
(experiments.go lines 229-258).  `uninst` is the number of deferred
uninstall invocations that fire at return (the deferred closure reassigns
the local `execRes` after the unnamed return values have been bound, so it
cannot change the values `Run` returns; its failure terminates the process
via `log.Fatalf` and is outside the returned state).  The `saveCalls0` and
build/pull counters are carried from the provisioning stage. -/
def runLaunchPhase (env : Env) (uninst : Nat)
    (buildCalls deffileCalls createImageCalls pullCalls saveCalls0 : Nat) : RunOut :=
  let expRes := env.launcherOutcome
  let execRes := env.launcherExec
  if expRes.Pass then
    match execRes.Err with
    | some e =>
      { flag := false, expRes := { expRes with Pass := false },
        execRes := saveWrap env { execRes with Err := some ("failed to run experiment: " ++ e) },
        installCalls := 1, buildCalls := buildCalls, deffileCalls := deffileCalls,
        createImageCalls := createImageCalls, pullCalls := pullCalls,
        launchCalls := 1, analyzeCalls := 0, saveCalls := saveCalls0 + 1,
        uninstallCalls := uninst }
    | none =>
      let analyzed := { expRes with Note := env.processOutputNote }
      match env.processOutputErr with
      | some e =>
        { flag := false, expRes := { analyzed with Pass := false },
          execRes := { execRes with Err := some ("failed to process output: " ++ e) },
          installCalls := 1, buildCalls := buildCalls, deffileCalls := deffileCalls,
          createImageCalls := createImageCalls, pullCalls := pullCalls,
          launchCalls := 1, analyzeCalls := 1, saveCalls := saveCalls0,
          uninstallCalls := uninst }
      | none =>
        { flag := false, expRes := { analyzed with Pass := true },
          execRes := execRes,
          installCalls := 1, buildCalls := buildCalls, deffileCalls := deffileCalls,
          createImageCalls := createImageCalls, pullCalls := pullCalls,
          launchCalls := 1, analyzeCalls := 1, saveCalls := saveCalls0,
          uninstallCalls := uninst }
  else
    { flag := false, expRes := expRes, execRes := execRes,
      installCalls := 1, buildCalls := buildCalls, deffileCalls := deffileCalls,
      createImageCalls := createImageCalls, pullCalls := pullCalls,
      launchCalls := 1, analyzeCalls := 0, saveCalls := saveCalls0,
      uninstallCalls := uninst }

/-- Embedding of `Run` (experiments.go lines 165-259).

Faithfulness notes:
* Line 209 tests `util.PathExists(exp.Container.Path)` on `Run`'s own
  value parameter `exp`; the derived path computed by `setExperimentCfg`
  never reaches this field (the write on line 121 targets a copy), so the
  test uses the caller-supplied `Container.Path` verbatim.
* Line 212 formats the function-local variable `err` (not `execRes.Err`);
  on every path reaching line 212 `err` is nil (its only prior assignments
  at lines 170 and 177 returned early when non-nil), so the message is
  `"failed to create container: " ++ goErrFmt none`.
* Line 190 replaces the install error with the constant message
  `"failed to install MPI on host"` (no `%s` verb, the underlying message
  is dropped).
* The deferred uninstall (lines 198-205) is registered only after a
  successful install and runs on every later return; it cannot change the
  returned values (unnamed results), so it is recorded as
  `uninstallCalls`. -/
def Run (env : Env) (exp : ContainerConfig) (sysCfg : SysConfig)
    (syConfig : MPIToolConfig) : RunOut :=
  match setExperimentCfg env exp sysCfg with
  | .error e =>
    { flag := false, expRes := { zeroResult with Pass := false },
      execRes := { zeroExec with Err := some ("failed to set experiment's configuration: " ++ e) },
      installCalls := 0, buildCalls := 0, deffileCalls := 0, createImageCalls := 0,
      pullCalls := 0, launchCalls := 0, analyzeCalls := 0, saveCalls := 0,
      uninstallCalls := 0 }
  | .ok (myHostMPICfg, myContainerMPICfg) =>
    match env.loadBuilder myHostMPICfg.Implem with
    | some e =>
      { flag := false, expRes := { zeroResult with Pass := false },
        execRes := { zeroExec with Err := some ("unable to load a builder: " ++ e) },
        installCalls := 0, buildCalls := 0, deffileCalls := 0, createImageCalls := 0,
        pullCalls := 0, launchCalls := 0, analyzeCalls := 0, saveCalls := 0,
        uninstallCalls := 0 }
    | none =>
      match env.installOnHost.Err with
      | some _ =>
        { flag := false, expRes := { zeroResult with Pass := false },
          execRes := saveWrap env { env.installOnHost with Err := some "failed to install MPI on host" },
          installCalls := 1, buildCalls := 0, deffileCalls := 0, createImageCalls := 0,
          pullCalls := 0, launchCalls := 0, analyzeCalls := 0, saveCalls := 1,
          uninstallCalls := 0 }
      | none =>
        let uninst : Nat := if env.isPersistent then 0 else 1
        if syConfig.BuildPrivilege || sysCfg.Nopriv then
          if env.pathExists exp.Container.Path then
            runLaunchPhase env uninst 0 0 0 0 0
          else
            let nc := createNewContainer env myContainerMPICfg exp sysCfg
            match nc.res.Err with
            | some _ =>
              { flag := false, expRes := { zeroResult with Pass := false },
                execRes := { nc.res with Err := some ("failed to create container: " ++ goErrFmt none) },
                installCalls := 1, buildCalls := nc.mpiContainerCalls,
                deffileCalls := nc.deffileCalls, createImageCalls := nc.createImageCalls,
                pullCalls := 0, launchCalls := 0, analyzeCalls := 0,
                saveCalls := nc.saveCalls, uninstallCalls := uninst }
            | none =>
              runLaunchPhase env uninst nc.mpiContainerCalls nc.deffileCalls
                nc.createImageCalls 0 nc.saveCalls
        else
          match env.pullImage with
          | some e =>
            { flag := false, expRes := { zeroResult with Pass := false },
              execRes := { env.installOnHost with Err := some ("failed to pull container: " ++ e) },
              installCalls := 1, buildCalls := 0, deffileCalls := 0, createImageCalls := 0,
              pullCalls := 1, launchCalls := 0, analyzeCalls := 0, saveCalls := 0,
              uninstallCalls := uninst }
          | none =>
            runLaunchPhase env uninst 0 0 0 1 0

/-! Concrete inputs used to evaluate the embedding on closed instances. -/

/-- A host MPI implementation descriptor. -/
def implemA : ImplemInfo := { ID := "openmpi", Version := "4.0.0", URL := "http://a" }

/-- A container MPI implementation descriptor. -/
def implemB : ImplemInfo := { ID := "openmpi", Version := "4.0.1", URL := "http://b" }

/-- A concrete experiment whose `Container.Path` field is left empty by the
caller (the structure's zero value), as a caller that expects the pipeline
to derive the path would leave it. -/
def expA : ContainerConfig :=
  { HostMPI := implemA
    ContainerMPI := implemB
    Container := { zeroContainerInfo with Distro := "ubuntu" }
    HostBuildEnv := { BuildDir := "/hb", ScratchDir := "/hs", InstallDir := "/hi" }
    ContainerBuildEnv := { BuildDir := "/cb", ScratchDir := "/cs", InstallDir := "/i" }
    App := { Name := "app" }
    Result := zeroResult }

/-- Concrete system settings: non-persistent run, no workload flags. -/
def sysA : SysConfig :=
  { Persistent := "", Nopriv := false, NetPipe := false, IMB := false, OutputFile := "" }

/-- Concrete tool configuration with build privilege. -/
def syA : MPIToolConfig := { BuildPrivilege := true }

/-- A concrete oracle in which every collaborator succeeds and exactly one
file exists on disk: the derived container image `/i/img.sif`
(`filepath.Join` of `expA`'s container install dir `/i` with the derived
name `img.sif`). -/
def envA : Env :=
  { pathExists := fun p => p == "/i/img.sif"
    fileExists := fun p => p == "/i/img.sif"
    mkdirAll := fun _ => none
    filepathJoin := fun a b => a ++ "/" ++ b
    getContainerDefaultName := fun _ _ _ _ _ => "img"
    getImageURL := fun _ _ => "oras://x"
    loadBuilder := fun _ => none
    installOnHost := zeroExec
    uninstallHost := zeroExec
    generateDeffile := none
    createImage := none
    pullImage := none
    saveErrorDetails := none
    launcherOutcome := { Pass := true, Note := "", HostMPI := implemA, ContainerMPI := implemB }
    launcherExec := zeroExec
    processOutputErr := none
    processOutputNote := "ok"
    isPersistent := false }

/-- `envA` with a failing host install (underlying message "boom") and a
succeeding diagnostic persister. -/
def envInstFail : Env :=
  { envA with installOnHost := { Err := some "boom", Stdout := "", Stderr := "x" } }

/-- `envInstFail` with a failing diagnostic persister (message "dfull"). -/
def envInstSaveFail : Env :=
  { envInstFail with saveErrorDetails := some "dfull" }

/-- `envA` with a launcher that reports a logical failure (`Pass=false`)
and no tooling error. -/
def envLaunchFail : Env :=
  { envA with
      launcherOutcome := { Pass := false, Note := "neg", HostMPI := implemA, ContainerMPI := implemB } }

/-- `envA` with a failing output analysis (message "perr"). -/
def envAnalyzeFail : Env :=
  { envA with processOutputErr := some "perr" }

/-! Helper lemmas. -/

/-- The Go double loop of `Pruning` is `List.filter` with the
"no matching prior result" predicate. -/
theorem pruning_eq_filter (S : List ContainerConfig) (R : List results.Result) :
    Pruning S R = S.filter (fun e =>
      ! R.any (fun r => e.HostMPI.Version == r.HostMPI.Version
          && e.ContainerMPI.Version == r.ContainerMPI.Version)) := by
  induction S with
  | nil => rfl
  | cons e rest ih =>
    by_cases h : (R.any (fun r => e.HostMPI.Version == r.HostMPI.Version
        && e.ContainerMPI.Version == r.ContainerMPI.Version)) = true
    · simp [Pruning, h, ih]
    · simp [Pruning, h, ih]

/-- `runLaunchPhase` always returns `flag = false`. -/
theorem runLaunchPhase_flag (env : Env) (u b d c p s : Nat) :
    (runLaunchPhase env u b d c p s).flag = false := by
  simp only [runLaunchPhase]
  repeat' split
  all_goals rfl

/-- `runLaunchPhase` performs exactly one launcher call. -/
theorem runLaunchPhase_launchCalls (env : Env) (u b d c p s : Nat) :
    (runLaunchPhase env u b d c p s).launchCalls = 1 := by
  simp only [runLaunchPhase]
  repeat' split
  all_goals rfl

/-- `runLaunchPhase` passes the build-attempt counter through. -/
theorem runLaunchPhase_buildCalls (env : Env) (u b d c p s : Nat) :
    (runLaunchPhase env u b d c p s).buildCalls = b := by
  simp only [runLaunchPhase]
  repeat' split
  all_goals rfl

/-- `runLaunchPhase` passes the pull counter through. -/
theorem runLaunchPhase_pullCalls (env : Env) (u b d c p s : Nat) :
    (runLaunchPhase env u b d c p s).pullCalls = p := by
  simp only [runLaunchPhase]
  repeat' split
  all_goals rfl

/-- If the outcome returned from the launch phase has `Pass = true`, then
the launcher reported a pass, its raw result carried no error, and the
output analysis succeeded. -/
theorem runLaunchPhase_pass_inv (env : Env) (u b d c p s : Nat)
    (h : (runLaunchPhase env u b d c p s).expRes.Pass = true) :
    env.launcherOutcome.Pass = true ∧ env.launcherExec.Err = none
      ∧ env.processOutputErr = none := by
  cases hp : env.launcherOutcome.Pass with
  | false => simp [runLaunchPhase, hp] at h
  | true =>
    cases herr : env.launcherExec.Err with
    | some e => simp [runLaunchPhase, hp, herr] at h
    | none =>
      cases hpo : env.processOutputErr with
      | some e => simp [runLaunchPhase, hp, herr, hpo] at h
      | none => exact ⟨rfl, rfl, rfl⟩

/-- When the launcher reports `Pass = false`, the launch phase returns the
launcher's outcome and raw result unchanged, performs no analysis, and
performs no additional persister call. -/
theorem runLaunchPhase_logical_failure (env : Env) (u b d c p s : Nat)
    (hp : env.launcherOutcome.Pass = false) :
    (runLaunchPhase env u b d c p s).expRes = env.launcherOutcome
    ∧ (runLaunchPhase env u b d c p s).execRes = env.launcherExec
    ∧ (runLaunchPhase env u b d c p s).saveCalls = s
    ∧ (runLaunchPhase env u b d c p s).analyzeCalls = 0 := by
  simp [runLaunchPhase, hp]

/-- If `createNewContainer` returns without error, it performed no
persister call. -/
theorem createNewContainer_saveCalls_of_ok (env : Env) (cc : MpiConfig)
    (exp : ContainerConfig) (sysCfg : SysConfig)
    (h : (createNewContainer env cc exp sysCfg).res.Err = none) :
    (createNewContainer env cc exp sysCfg).saveCalls = 0 := by
  by_cases hskip : (sysCfg.Persistent != "" && env.fileExists cc.Container.Path) = true
  · simp [createNewContainer, hskip]
  · cases hc : (createMPIContainer env exp.App cc exp.ContainerBuildEnv sysCfg).res.Err with
    | none => simp [createNewContainer, hskip, hc]
    | some e =>
      cases hs : env.saveErrorDetails with
      | none => simp [createNewContainer, hskip, hc, hs] at h
      | some es => simp [createNewContainer, hskip, hc, hs] at h

/-- When the launcher passes but its raw result carries an error, the
launch phase wraps the error with the run-stage context and applies the
persister step. -/
theorem runLaunchPhase_run_failure (env : Env) (u b d c p s : Nat) (e : String)
    (hp : env.launcherOutcome.Pass = true)
    (he : env.launcherExec.Err = some e) :
    (runLaunchPhase env u b d c p s).execRes
      = saveWrap env { env.launcherExec with Err := some ("failed to run experiment: " ++ e) } := by
  simp [runLaunchPhase, hp, he]

/-- When the analysis stage ran and failed, the launch phase wraps the
analysis error with the analysis-stage context. -/
theorem runLaunchPhase_analysis_failure (env : Env) (u b d c p s : Nat) (e : String)
    (hpo : env.processOutputErr = some e)
    (ha : (runLaunchPhase env u b d c p s).analyzeCalls = 1) :
    (runLaunchPhase env u b d c p s).execRes.Err
      = some ("failed to process output: " ++ e) := by
  cases hp : env.launcherOutcome.Pass with
  | false => simp [runLaunchPhase, hp] at ha
  | true =>
    cases he : env.launcherExec.Err with
    | some e2 => simp [runLaunchPhase, hp, he] at ha
    | none => simp [runLaunchPhase, hp, he, hpo]

/-- Exhaustive path analysis of the embedded `Run`: every execution takes
exactly one of the eight return paths, and on each the returned record is
the stated one. -/
theorem run_cases (env : Env) (exp : ContainerConfig) (sysCfg : SysConfig)
    (syConfig : MPIToolConfig) :
    (∃ e, setExperimentCfg env exp sysCfg = .error e ∧
      Run env exp sysCfg syConfig =
        { flag := false, expRes := { zeroResult with Pass := false },
          execRes := { zeroExec with Err := some ("failed to set experiment's configuration: " ++ e) },
          installCalls := 0, buildCalls := 0, deffileCalls := 0, createImageCalls := 0,
          pullCalls := 0, launchCalls := 0, analyzeCalls := 0, saveCalls := 0,
          uninstallCalls := 0 })
    ∨ (∃ hc cc e, setExperimentCfg env exp sysCfg = .ok (hc, cc)
        ∧ env.loadBuilder hc.Implem = some e ∧
      Run env exp sysCfg syConfig =
        { flag := false, expRes := { zeroResult with Pass := false },
          execRes := { zeroExec with Err := some ("unable to load a builder: " ++ e) },
          installCalls := 0, buildCalls := 0, deffileCalls := 0, createImageCalls := 0,
          pullCalls := 0, launchCalls := 0, analyzeCalls := 0, saveCalls := 0,
          uninstallCalls := 0 })
    ∨ (∃ hc cc e, setExperimentCfg env exp sysCfg = .ok (hc, cc)
        ∧ env.loadBuilder hc.Implem = none ∧ env.installOnHost.Err = some e ∧
      Run env exp sysCfg syConfig =
        { flag := false, expRes := { zeroResult with Pass := false },
          execRes := saveWrap env { env.installOnHost with Err := some "failed to install MPI on host" },
          installCalls := 1, buildCalls := 0, deffileCalls := 0, createImageCalls := 0,
          pullCalls := 0, launchCalls := 0, analyzeCalls := 0, saveCalls := 1,
          uninstallCalls := 0 })
    ∨ (∃ hc cc, setExperimentCfg env exp sysCfg = .ok (hc, cc)
        ∧ env.loadBuilder hc.Implem = none ∧ env.installOnHost.Err = none
        ∧ (syConfig.BuildPrivilege || sysCfg.Nopriv) = true
        ∧ env.pathExists exp.Container.Path = true ∧
      Run env exp sysCfg syConfig =
        runLaunchPhase env (if env.isPersistent then 0 else 1) 0 0 0 0 0)
    ∨ (∃ hc cc e, setExperimentCfg env exp sysCfg = .ok (hc, cc)
        ∧ env.loadBuilder hc.Implem = none ∧ env.installOnHost.Err = none
        ∧ (syConfig.BuildPrivilege || sysCfg.Nopriv) = true
        ∧ env.pathExists exp.Container.Path = false
        ∧ (createNewContainer env cc exp sysCfg).res.Err = some e ∧
      Run env exp sysCfg syConfig =
        { flag := false, expRes := { zeroResult with Pass := false },
          execRes := { (createNewContainer env cc exp sysCfg).res with
            Err := some ("failed to create container: " ++ goErrFmt none) },
          installCalls := 1,
          buildCalls := (createNewContainer env cc exp sysCfg).mpiContainerCalls,
          deffileCalls := (createNewContainer env cc exp sysCfg).deffileCalls,
          createImageCalls := (createNewContainer env cc exp sysCfg).createImageCalls,
          pullCalls := 0, launchCalls := 0, analyzeCalls := 0,
          saveCalls := (createNewContainer env cc exp sysCfg).saveCalls,
          uninstallCalls := if env.isPersistent then 0 else 1 })
    ∨ (∃ hc cc, setExperimentCfg env exp sysCfg = .ok (hc, cc)
        ∧ env.loadBuilder hc.Implem = none ∧ env.installOnHost.Err = none
        ∧ (syConfig.BuildPrivilege || sysCfg.Nopriv) = true
        ∧ env.pathExists exp.Container.Path = false
        ∧ (createNewContainer env cc exp sysCfg).res.Err = none ∧
      Run env exp sysCfg syConfig =
        runLaunchPhase env (if env.isPersistent then 0 else 1)
          (createNewContainer env cc exp sysCfg).mpiContainerCalls
          (createNewContainer env cc exp sysCfg).deffileCalls
          (createNewContainer env cc exp sysCfg).createImageCalls
          0 (createNewContainer env cc exp sysCfg).saveCalls)
    ∨ (∃ hc cc e, setExperimentCfg env exp sysCfg = .ok (hc, cc)
        ∧ env.loadBuilder hc.Implem = none ∧ env.installOnHost.Err = none
        ∧ (syConfig.BuildPrivilege || sysCfg.Nopriv) = false
        ∧ env.pullImage = some e ∧
      Run env exp sysCfg syConfig =
        { flag := false, expRes := { zeroResult with Pass := false },
          execRes := { env.installOnHost with Err := some ("failed to pull container: " ++ e) },
          installCalls := 1, buildCalls := 0, deffileCalls := 0, createImageCalls := 0,
          pullCalls := 1, launchCalls := 0, analyzeCalls := 0, saveCalls := 0,
          uninstallCalls := if env.isPersistent then 0 else 1 })
    ∨ (∃ hc cc, setExperimentCfg env exp sysCfg = .ok (hc, cc)
        ∧ env.loadBuilder hc.Implem = none ∧ env.installOnHost.Err = none
        ∧ (syConfig.BuildPrivilege || sysCfg.Nopriv) = false
        ∧ env.pullImage = none ∧
      Run env exp sysCfg syConfig =
        runLaunchPhase env (if env.isPersistent then 0 else 1) 0 0 0 1 0) := by
  cases hcfg : setExperimentCfg env exp sysCfg with
  | error e => exact Or.inl ⟨e, rfl, by simp [Run, hcfg]⟩
  | ok cfgs =>
    obtain ⟨hc, cc⟩ := cfgs
    cases hload : env.loadBuilder hc.Implem with
    | some e =>
      exact Or.inr (Or.inl ⟨hc, cc, e, rfl, hload, by simp [Run, hcfg, hload]⟩)
    | none =>
      cases hinst : env.installOnHost.Err with
      | some e =>
        exact Or.inr (Or.inr (Or.inl ⟨hc, cc, e, rfl, hload, rfl,
          by simp [Run, hcfg, hload, hinst]⟩))
      | none =>
        cases hpriv : (syConfig.BuildPrivilege || sysCfg.Nopriv) with
        | true =>
          cases hpath : env.pathExists exp.Container.Path with
          | true =>
            exact Or.inr (Or.inr (Or.inr (Or.inl ⟨hc, cc, rfl, hload, rfl,
              rfl, rfl, by simp [Run, hcfg, hload, hinst, hpriv, hpath]⟩)))
          | false =>
            cases hnc : (createNewContainer env cc exp sysCfg).res.Err with
            | some e =>
              exact Or.inr (Or.inr (Or.inr (Or.inr (Or.inl ⟨hc, cc, e, rfl,
                hload, rfl, rfl, rfl, hnc,
                by simp [Run, hcfg, hload, hinst, hpriv, hpath, hnc]⟩))))
            | none =>
              exact Or.inr (Or.inr (Or.inr (Or.inr (Or.inr (Or.inl ⟨hc, cc,
                rfl, hload, rfl, rfl, rfl, hnc,
                by simp [Run, hcfg, hload, hinst, hpriv, hpath, hnc]⟩)))))
        | false =>
          cases hpull : env.pullImage with
          | some e =>
            exact Or.inr (Or.inr (Or.inr (Or.inr (Or.inr (Or.inr (Or.inl
              ⟨hc, cc, e, rfl, hload, rfl, rfl, rfl,
                by simp [Run, hcfg, hload, hinst, hpriv, hpull]⟩))))))
          | none =>
            exact Or.inr (Or.inr (Or.inr (Or.inr (Or.inr (Or.inr (Or.inr
              ⟨hc, cc, rfl, hload, rfl, rfl, rfl,
                by simp [Run, hcfg, hload, hinst, hpriv, hpull]⟩))))))

/-! Claim theorems. -/

/-- C1: on a concrete run with build privilege, a non-persistent
configuration, and a container image present exactly at the derived image
path (join of the container install dir with the derived name), `Run`
nevertheless performs an image build (one `createMPIContainer` invocation,
one `container.Create` call): the skip test on line 209 reads the
caller-supplied `exp.Container.Path` (here the empty string), to which the
derived path computed by `setExperimentCfg` was never propagated, because
line 121 writes it into a by-value copy of `exp`.  This refutes the claim
that no build call happens whenever the image exists at the derived
path. -/
theorem C1_build_despite_existing_derived_image :
    syA.BuildPrivilege = true
    ∧ envA.pathExists (envA.filepathJoin expA.ContainerBuildEnv.InstallDir
        (envA.getContainerDefaultName expA.Container.Distro expA.ContainerMPI.ID
          expA.ContainerMPI.Version expA.App.Name HybridModel ++ ".sif")) = true
    ∧ (Run envA expA sysA syA).buildCalls = 1
    ∧ (Run envA expA sysA syA).createImageCalls = 1 := by
  refine ⟨rfl, by decide, by decide, by decide⟩

/-- C2: `Pruning S R` is exactly the `List.filter` of `S` (hence the
subsequence of `S` in input order) keeping the specs for which no result
in `R` matches both the host version and the container version, where the
match predicate is exact string equality on both version fields jointly. -/
theorem C2_pruning_keeps_uncovered_specs (S : List ContainerConfig)
    (R : List results.Result) :
    Pruning S R = S.filter (fun e =>
      ! R.any (fun r => e.HostMPI.Version == r.HostMPI.Version
          && e.ContainerMPI.Version == r.ContainerMPI.Version))
    ∧ ∀ e : ContainerConfig,
        ((! R.any (fun r => e.HostMPI.Version == r.HostMPI.Version
            && e.ContainerMPI.Version == r.ContainerMPI.Version)) = true
          ↔ ¬ ∃ r ∈ R, e.HostMPI.Version = r.HostMPI.Version
              ∧ e.ContainerMPI.Version = r.ContainerMPI.Version) := by
  refine ⟨pruning_eq_filter S R, fun e => ?_⟩
  simp [List.any_eq_true]

/-- C7: on every input and on every return path, the first (boolean)
return value of `Run` is `false`. -/
theorem C7_run_boolean_always_false (env : Env) (exp : ContainerConfig)
    (sysCfg : SysConfig) (syConfig : MPIToolConfig) :
    (Run env exp sysCfg syConfig).flag = false := by
  simp only [Run]
  repeat' split
  all_goals first
  | rfl
  | apply runLaunchPhase_flag

/-- C8: `GetOutputFilename` returns a nil error and leaves the settings'
output file at `{id}-imb-results.txt` when the IMB flag is set (even if
NetPipe is also set), otherwise at `{id}-netpipe-results.txt` when the
NetPipe flag is set, and otherwise at `{id}-init-results.txt`. -/
theorem C8_output_filename (m : String) (s : SysConfig) :
    (GetOutputFilename m s).2 = none
    ∧ (GetOutputFilename m s).1.OutputFile =
        (if s.IMB then m ++ "-imb-results.txt"
         else if s.NetPipe then m ++ "-netpipe-results.txt"
         else m ++ "-init-results.txt") := by
  refine ⟨rfl, ?_⟩
  cases h1 : s.IMB <;> cases h2 : s.NetPipe <;>
    simp [GetOutputFilename, h1, h2]

/-- C9: `Pruning` is idempotent for a fixed results list:
pruning the already-pruned list with the same results returns it
unchanged. -/
theorem C9_pruning_idempotent (S : List ContainerConfig)
    (R : List results.Result) :
    Pruning (Pruning S R) R = Pruning S R := by
  rw [pruning_eq_filter (Pruning S R) R, pruning_eq_filter S R,
    List.filter_filter]
  simp

/-- C3: the returned outcome has `Pass = true` only if configuration
derivation succeeded, the builder load succeeded, the host install carried
no error, the container-provisioning stage completed without error (skip,
successful build, or successful pull), the launcher reported a passing
outcome with an error-free raw result, and the output analysis
succeeded. -/
theorem C3_pass_implies_all_stages_ok (env : Env) (exp : ContainerConfig)
    (sysCfg : SysConfig) (syConfig : MPIToolConfig)
    (h : (Run env exp sysCfg syConfig).expRes.Pass = true) :
    (∃ cfgs, setExperimentCfg env exp sysCfg = .ok cfgs)
    ∧ (∀ cfgs, setExperimentCfg env exp sysCfg = .ok cfgs →
        env.loadBuilder cfgs.1.Implem = none)
    ∧ env.installOnHost.Err = none
    ∧ ((syConfig.BuildPrivilege || sysCfg.Nopriv) = true →
        env.pathExists exp.Container.Path = true
        ∨ ∀ cfgs, setExperimentCfg env exp sysCfg = .ok cfgs →
            (createNewContainer env cfgs.2 exp sysCfg).res.Err = none)
    ∧ ((syConfig.BuildPrivilege || sysCfg.Nopriv) = false → env.pullImage = none)
    ∧ env.launcherOutcome.Pass = true
    ∧ env.launcherExec.Err = none
    ∧ env.processOutputErr = none := by
  rcases run_cases env exp sysCfg syConfig with
    ⟨e, hcfg, hrun⟩ | ⟨hc, cc, e, hcfg, hload, hrun⟩ |
    ⟨hc, cc, e, hcfg, hload, hinst, hrun⟩ |
    ⟨hc, cc, hcfg, hload, hinst, hpriv, hpath, hrun⟩ |
    ⟨hc, cc, e, hcfg, hload, hinst, hpriv, hpath, hnc, hrun⟩ |
    ⟨hc, cc, hcfg, hload, hinst, hpriv, hpath, hnc, hrun⟩ |
    ⟨hc, cc, e, hcfg, hload, hinst, hpriv, hpull, hrun⟩ |
    ⟨hc, cc, hcfg, hload, hinst, hpriv, hpull, hrun⟩
  · rw [hrun] at h; simp at h
  · rw [hrun] at h; simp at h
  · rw [hrun] at h; simp at h
  · rw [hrun] at h
    obtain ⟨hl, he, hp⟩ := runLaunchPhase_pass_inv _ _ _ _ _ _ _ h
    refine ⟨⟨(hc, cc), hcfg⟩, ?_, hinst, fun _ => Or.inl hpath, ?_, hl, he, hp⟩
    · intro cfgs hx
      rw [hcfg] at hx
      injection hx with hx2
      subst hx2
      exact hload
    · intro hx
      rw [hpriv] at hx
      exact absurd hx (by decide)
  · rw [hrun] at h; simp at h
  · rw [hrun] at h
    obtain ⟨hl, he, hp⟩ := runLaunchPhase_pass_inv _ _ _ _ _ _ _ h
    refine ⟨⟨(hc, cc), hcfg⟩, ?_, hinst, ?_, ?_, hl, he, hp⟩
    · intro cfgs hx
      rw [hcfg] at hx
      injection hx with hx2
      subst hx2
      exact hload
    · intro _
      refine Or.inr ?_
      intro cfgs hx
      rw [hcfg] at hx
      injection hx with hx2
      subst hx2
      exact hnc
    · intro hx
      rw [hpriv] at hx
      exact absurd hx (by decide)
  · rw [hrun] at h; simp at h
  · rw [hrun] at h
    obtain ⟨hl, he, hp⟩ := runLaunchPhase_pass_inv _ _ _ _ _ _ _ h
    refine ⟨⟨(hc, cc), hcfg⟩, ?_, hinst, ?_, fun _ => hpull, hl, he, hp⟩
    · intro cfgs hx
      rw [hcfg] at hx
      injection hx with hx2
      subst hx2
      exact hload
    · intro hx
      rw [hpriv] at hx
      exact absurd hx (by decide)

/-- Witness for C3: a concrete run in which every stage succeeds; applying
the theorem at it discharges the hypothesis by evaluation. -/
theorem C3_witness :
    (∃ cfgs, setExperimentCfg envA expA sysA = .ok cfgs)
    ∧ (∀ cfgs, setExperimentCfg envA expA sysA = .ok cfgs →
        envA.loadBuilder cfgs.1.Implem = none)
    ∧ envA.installOnHost.Err = none
    ∧ ((syA.BuildPrivilege || sysA.Nopriv) = true →
        envA.pathExists expA.Container.Path = true
        ∨ ∀ cfgs, setExperimentCfg envA expA sysA = .ok cfgs →
            (createNewContainer envA cfgs.2 expA sysA).res.Err = none)
    ∧ ((syA.BuildPrivilege || sysA.Nopriv) = false → envA.pullImage = none)
    ∧ envA.launcherOutcome.Pass = true
    ∧ envA.launcherExec.Err = none
    ∧ envA.processOutputErr = none :=
  C3_pass_implies_all_stages_ok envA expA sysA syA (by decide)

/-- C4 (amended): if the host-install step ran (`installCalls = 1`) and
returned a non-nil error, `Run` returns boolean `false`, `Pass = false`,
invokes the diagnostic persister exactly once, and returns a non-nil
error; that error is the fixed message "failed to install MPI on host"
when the persister succeeds, and the persister-failure message
otherwise. -/
theorem C4_host_install_failure (env : Env) (exp : ContainerConfig)
    (sysCfg : SysConfig) (syConfig : MPIToolConfig) (e : String)
    (hreach : (Run env exp sysCfg syConfig).installCalls = 1)
    (herr : env.installOnHost.Err = some e) :
    (Run env exp sysCfg syConfig).flag = false
    ∧ (Run env exp sysCfg syConfig).expRes.Pass = false
    ∧ (Run env exp sysCfg syConfig).saveCalls = 1
    ∧ (Run env exp sysCfg syConfig).execRes.Err.isSome = true
    ∧ (env.saveErrorDetails = none →
        (Run env exp sysCfg syConfig).execRes.Err
          = some "failed to install MPI on host")
    ∧ (∀ es, env.saveErrorDetails = some es →
        (Run env exp sysCfg syConfig).execRes.Err
          = some ("failed to save error details: " ++ es)) := by
  rcases run_cases env exp sysCfg syConfig with
    ⟨e2, hcfg, hrun⟩ | ⟨hc, cc, e2, hcfg, hload, hrun⟩ |
    ⟨hc, cc, e2, hcfg, hload, hinst, hrun⟩ |
    ⟨hc, cc, hcfg, hload, hinst, hpriv, hpath, hrun⟩ |
    ⟨hc, cc, e2, hcfg, hload, hinst, hpriv, hpath, hnc, hrun⟩ |
    ⟨hc, cc, hcfg, hload, hinst, hpriv, hpath, hnc, hrun⟩ |
    ⟨hc, cc, e2, hcfg, hload, hinst, hpriv, hpull, hrun⟩ |
    ⟨hc, cc, hcfg, hload, hinst, hpriv, hpull, hrun⟩
  · rw [hrun] at hreach; simp at hreach
  · rw [hrun] at hreach; simp at hreach
  · rw [hrun]
    cases hs : env.saveErrorDetails with
    | none => simp [saveWrap, hs]
    | some es => simp [saveWrap, hs]
  · rw [herr] at hinst; simp at hinst
  · rw [herr] at hinst; simp at hinst
  · rw [herr] at hinst; simp at hinst
  · rw [herr] at hinst; simp at hinst
  · rw [herr] at hinst; simp at hinst

/-- Witness for C4's amended theorem: a concrete run whose host install
fails with message "boom" and whose persister succeeds. -/
theorem C4_witness :
    (Run envInstFail expA sysA syA).flag = false
    ∧ (Run envInstFail expA sysA syA).expRes.Pass = false
    ∧ (Run envInstFail expA sysA syA).saveCalls = 1
    ∧ (Run envInstFail expA sysA syA).execRes.Err.isSome = true
    ∧ (envInstFail.saveErrorDetails = none →
        (Run envInstFail expA sysA syA).execRes.Err
          = some "failed to install MPI on host")
    ∧ (∀ es, envInstFail.saveErrorDetails = some es →
        (Run envInstFail expA sysA syA).execRes.Err
          = some ("failed to save error details: " ++ es)) :=
  C4_host_install_failure envInstFail expA sysA syA "boom" (by decide) (by decide)

/-- Counterexample for C4 as stated: when the host install fails but the
diagnostic persister also fails, the returned error is the
persistence-failure message, which does not wrap
"failed to install MPI on host". -/
theorem C4_cx_persistence_failure_replaces_error :
    envInstSaveFail.installOnHost.Err = some "boom"
    ∧ (Run envInstSaveFail expA sysA syA).saveCalls = 1
    ∧ (Run envInstSaveFail expA sysA syA).execRes.Err
        = some "failed to save error details: dfull"
    ∧ substrB "failed to install MPI on host"
        "failed to save error details: dfull" = false := by
  refine ⟨by decide, by decide, by decide, by decide⟩

/-- C5 (amended): per-path error wrapping of `Run`.  Configuration, pull,
run and analysis failures wrap the stage context together with the
underlying message; the host-install failure keeps only the fixed stage
message "failed to install MPI on host" (the underlying message is
dropped); the container-build failure replaces the error with
"failed to create container: " followed by the `%s`-format of a nil error
(the code formats its then-nil local `err` instead of the build error);
and when the persister itself fails on the install or run paths the error
is replaced by the persistence-failure message. -/
theorem C5_error_wrapping (env : Env) (exp : ContainerConfig)
    (sysCfg : SysConfig) (syConfig : MPIToolConfig) :
    (∀ e, setExperimentCfg env exp sysCfg = .error e →
        (Run env exp sysCfg syConfig).execRes.Err
          = some ("failed to set experiment's configuration: " ++ e))
    ∧ (∀ e, (Run env exp sysCfg syConfig).installCalls = 1 →
        env.installOnHost.Err = some e → env.saveErrorDetails = none →
        (Run env exp sysCfg syConfig).execRes.Err
          = some "failed to install MPI on host")
    ∧ (∀ e es, (Run env exp sysCfg syConfig).installCalls = 1 →
        env.installOnHost.Err = some e → env.saveErrorDetails = some es →
        (Run env exp sysCfg syConfig).execRes.Err
          = some ("failed to save error details: " ++ es))
    ∧ ((Run env exp sysCfg syConfig).buildCalls = 1 →
        (Run env exp sysCfg syConfig).launchCalls = 0 →
        (Run env exp sysCfg syConfig).execRes.Err
          = some ("failed to create container: " ++ goErrFmt none))
    ∧ (∀ e, (Run env exp sysCfg syConfig).pullCalls = 1 →
        (Run env exp sysCfg syConfig).launchCalls = 0 →
        env.pullImage = some e →
        (Run env exp sysCfg syConfig).execRes.Err
          = some ("failed to pull container: " ++ e))
    ∧ (∀ e, (Run env exp sysCfg syConfig).launchCalls = 1 →
        env.launcherOutcome.Pass = true → env.launcherExec.Err = some e →
        env.saveErrorDetails = none →
        (Run env exp sysCfg syConfig).execRes.Err
          = some ("failed to run experiment: " ++ e))
    ∧ (∀ e es, (Run env exp sysCfg syConfig).launchCalls = 1 →
        env.launcherOutcome.Pass = true → env.launcherExec.Err = some e →
        env.saveErrorDetails = some es →
        (Run env exp sysCfg syConfig).execRes.Err
          = some ("failed to save error details: " ++ es))
    ∧ (∀ e, (Run env exp sysCfg syConfig).analyzeCalls = 1 →
        env.processOutputErr = some e →
        (Run env exp sysCfg syConfig).execRes.Err
          = some ("failed to process output: " ++ e)) := by
  refine ⟨?_, ?_, ?_, ?_, ?_, ?_, ?_, ?_⟩
  · intro e hcfg0
    rcases run_cases env exp sysCfg syConfig with
      ⟨e2, hcfg, hrun⟩ | ⟨hc, cc, e2, hcfg, hload, hrun⟩ |
      ⟨hc, cc, e2, hcfg, hload, hinst, hrun⟩ |
      ⟨hc, cc, hcfg, hload, hinst, hpriv, hpath, hrun⟩ |
      ⟨hc, cc, e2, hcfg, hload, hinst, hpriv, hpath, hnc, hrun⟩ |
      ⟨hc, cc, hcfg, hload, hinst, hpriv, hpath, hnc, hrun⟩ |
      ⟨hc, cc, e2, hcfg, hload, hinst, hpriv, hpull, hrun⟩ |
      ⟨hc, cc, hcfg, hload, hinst, hpriv, hpull, hrun⟩
    · rw [hcfg0] at hcfg
      injection hcfg with hx
      subst hx
      rw [hrun]
    · rw [hcfg0] at hcfg; simp at hcfg
    · rw [hcfg0] at hcfg; simp at hcfg
    · rw [hcfg0] at hcfg; simp at hcfg
    · rw [hcfg0] at hcfg; simp at hcfg
    · rw [hcfg0] at hcfg; simp at hcfg
    · rw [hcfg0] at hcfg; simp at hcfg
    · rw [hcfg0] at hcfg; simp at hcfg
  · intro e hreach herr hs
    rcases run_cases env exp sysCfg syConfig with
      ⟨e2, hcfg, hrun⟩ | ⟨hc, cc, e2, hcfg, hload, hrun⟩ |
      ⟨hc, cc, e2, hcfg, hload, hinst, hrun⟩ |
      ⟨hc, cc, hcfg, hload, hinst, hpriv, hpath, hrun⟩ |
      ⟨hc, cc, e2, hcfg, hload, hinst, hpriv, hpath, hnc, hrun⟩ |
      ⟨hc, cc, hcfg, hload, hinst, hpriv, hpath, hnc, hrun⟩ |
      ⟨hc, cc, e2, hcfg, hload, hinst, hpriv, hpull, hrun⟩ |
      ⟨hc, cc, hcfg, hload, hinst, hpriv, hpull, hrun⟩
    · rw [hrun] at hreach; simp at hreach
    · rw [hrun] at hreach; simp at hreach
    · rw [hrun]; simp [saveWrap, hs]
    · rw [herr] at hinst; simp at hinst
    · rw [herr] at hinst; simp at hinst
    · rw [herr] at hinst; simp at hinst
    · rw [herr] at hinst; simp at hinst
    · rw [herr] at hinst; simp at hinst
  · intro e es hreach herr hs
    rcases run_cases env exp sysCfg syConfig with
      ⟨e2, hcfg, hrun⟩ | ⟨hc, cc, e2, hcfg, hload, hrun⟩ |
      ⟨hc, cc, e2, hcfg, hload, hinst, hrun⟩ |
      ⟨hc, cc, hcfg, hload, hinst, hpriv, hpath, hrun⟩ |
      ⟨hc, cc, e2, hcfg, hload, hinst, hpriv, hpath, hnc, hrun⟩ |
      ⟨hc, cc, hcfg, hload, hinst, hpriv, hpath, hnc, hrun⟩ |
      ⟨hc, cc, e2, hcfg, hload, hinst, hpriv, hpull, hrun⟩ |
      ⟨hc, cc, hcfg, hload, hinst, hpriv, hpull, hrun⟩
    · rw [hrun] at hreach; simp at hreach
    · rw [hrun] at hreach; simp at hreach
    · rw [hrun]; simp [saveWrap, hs]
    · rw [herr] at hinst; simp at hinst
    · rw [herr] at hinst; simp at hinst
    · rw [herr] at hinst; simp at hinst
    · rw [herr] at hinst; simp at hinst
    · rw [herr] at hinst; simp at hinst
  · intro hb hl
    rcases run_cases env exp sysCfg syConfig with
      ⟨e2, hcfg, hrun⟩ | ⟨hc, cc, e2, hcfg, hload, hrun⟩ |
      ⟨hc, cc, e2, hcfg, hload, hinst, hrun⟩ |
      ⟨hc, cc, hcfg, hload, hinst, hpriv, hpath, hrun⟩ |
      ⟨hc, cc, e2, hcfg, hload, hinst, hpriv, hpath, hnc, hrun⟩ |
      ⟨hc, cc, hcfg, hload, hinst, hpriv, hpath, hnc, hrun⟩ |
      ⟨hc, cc, e2, hcfg, hload, hinst, hpriv, hpull, hrun⟩ |
      ⟨hc, cc, hcfg, hload, hinst, hpriv, hpull, hrun⟩
    · rw [hrun] at hb; simp at hb
    · rw [hrun] at hb; simp at hb
    · rw [hrun] at hb; simp at hb
    · rw [hrun] at hl; rw [runLaunchPhase_launchCalls] at hl; simp at hl
    · rw [hrun]
    · rw [hrun] at hl; rw [runLaunchPhase_launchCalls] at hl; simp at hl
    · rw [hrun] at hb; simp at hb
    · rw [hrun] at hl; rw [runLaunchPhase_launchCalls] at hl; simp at hl
  · intro e hpc hl hpe
    rcases run_cases env exp sysCfg syConfig with
      ⟨e2, hcfg, hrun⟩ | ⟨hc, cc, e2, hcfg, hload, hrun⟩ |
      ⟨hc, cc, e2, hcfg, hload, hinst, hrun⟩ |
      ⟨hc, cc, hcfg, hload, hinst, hpriv, hpath, hrun⟩ |
      ⟨hc, cc, e2, hcfg, hload, hinst, hpriv, hpath, hnc, hrun⟩ |
      ⟨hc, cc, hcfg, hload, hinst, hpriv, hpath, hnc, hrun⟩ |
      ⟨hc, cc, e2, hcfg, hload, hinst, hpriv, hpull, hrun⟩ |
      ⟨hc, cc, hcfg, hload, hinst, hpriv, hpull, hrun⟩
    · rw [hrun] at hpc; simp at hpc
    · rw [hrun] at hpc; simp at hpc
    · rw [hrun] at hpc; simp at hpc
    · rw [hrun] at hpc; rw [runLaunchPhase_pullCalls] at hpc; simp at hpc
    · rw [hrun] at hpc; simp at hpc
    · rw [hrun] at hpc; rw [runLaunchPhase_pullCalls] at hpc; simp at hpc
    · rw [hpull] at hpe
      injection hpe with hx
      subst hx
      rw [hrun]
    · rw [hrun] at hl; rw [runLaunchPhase_launchCalls] at hl; simp at hl
  · intro e hl hp he hs
    rcases run_cases env exp sysCfg syConfig with
      ⟨e2, hcfg, hrun⟩ | ⟨hc, cc, e2, hcfg, hload, hrun⟩ |
      ⟨hc, cc, e2, hcfg, hload, hinst, hrun⟩ |
      ⟨hc, cc, hcfg, hload, hinst, hpriv, hpath, hrun⟩ |
      ⟨hc, cc, e2, hcfg, hload, hinst, hpriv, hpath, hnc, hrun⟩ |
      ⟨hc, cc, hcfg, hload, hinst, hpriv, hpath, hnc, hrun⟩ |
      ⟨hc, cc, e2, hcfg, hload, hinst, hpriv, hpull, hrun⟩ |
      ⟨hc, cc, hcfg, hload, hinst, hpriv, hpull, hrun⟩
    · rw [hrun] at hl; simp at hl
    · rw [hrun] at hl; simp at hl
    · rw [hrun] at hl; simp at hl
    · rw [hrun]
      rw [runLaunchPhase_run_failure env _ _ _ _ _ _ e hp he]
      simp [saveWrap, hs]
    · rw [hrun] at hl; simp at hl
    · rw [hrun]
      rw [runLaunchPhase_run_failure env _ _ _ _ _ _ e hp he]
      simp [saveWrap, hs]
    · rw [hrun] at hl; simp at hl
    · rw [hrun]
      rw [runLaunchPhase_run_failure env _ _ _ _ _ _ e hp he]
      simp [saveWrap, hs]
  · intro e es hl hp he hs
    rcases run_cases env exp sysCfg syConfig with
      ⟨e2, hcfg, hrun⟩ | ⟨hc, cc, e2, hcfg, hload, hrun⟩ |
      ⟨hc, cc, e2, hcfg, hload, hinst, hrun⟩ |
      ⟨hc, cc, hcfg, hload, hinst, hpriv, hpath, hrun⟩ |
      ⟨hc, cc, e2, hcfg, hload, hinst, hpriv, hpath, hnc, hrun⟩ |
      ⟨hc, cc, hcfg, hload, hinst, hpriv, hpath, hnc, hrun⟩ |
      ⟨hc, cc, e2, hcfg, hload, hinst, hpriv, hpull, hrun⟩ |
      ⟨hc, cc, hcfg, hload, hinst, hpriv, hpull, hrun⟩
    · rw [hrun] at hl; simp at hl
    · rw [hrun] at hl; simp at hl
    · rw [hrun] at hl; simp at hl
    · rw [hrun]
      rw [runLaunchPhase_run_failure env _ _ _ _ _ _ e hp he]
      simp [saveWrap, hs]
    · rw [hrun] at hl; simp at hl
    · rw [hrun]
      rw [runLaunchPhase_run_failure env _ _ _ _ _ _ e hp he]
      simp [saveWrap, hs]
    · rw [hrun] at hl; simp at hl
    · rw [hrun]
      rw [runLaunchPhase_run_failure env _ _ _ _ _ _ e hp he]
      simp [saveWrap, hs]
  · intro e ha hpo
    rcases run_cases env exp sysCfg syConfig with
      ⟨e2, hcfg, hrun⟩ | ⟨hc, cc, e2, hcfg, hload, hrun⟩ |
      ⟨hc, cc, e2, hcfg, hload, hinst, hrun⟩ |
      ⟨hc, cc, hcfg, hload, hinst, hpriv, hpath, hrun⟩ |
      ⟨hc, cc, e2, hcfg, hload, hinst, hpriv, hpath, hnc, hrun⟩ |
      ⟨hc, cc, hcfg, hload, hinst, hpriv, hpath, hnc, hrun⟩ |
      ⟨hc, cc, e2, hcfg, hload, hinst, hpriv, hpull, hrun⟩ |
      ⟨hc, cc, hcfg, hload, hinst, hpriv, hpull, hrun⟩
    · rw [hrun] at ha; simp at ha
    · rw [hrun] at ha; simp at ha
    · rw [hrun] at ha; simp at ha
    · rw [hrun] at ha ⊢
      exact runLaunchPhase_analysis_failure _ _ _ _ _ _ _ e hpo ha
    · rw [hrun] at ha; simp at ha
    · rw [hrun] at ha ⊢
      exact runLaunchPhase_analysis_failure _ _ _ _ _ _ _ e hpo ha
    · rw [hrun] at ha; simp at ha
    · rw [hrun] at ha ⊢
      exact runLaunchPhase_analysis_failure _ _ _ _ _ _ _ e hpo ha

/-- Witness for C5's amended theorem: a concrete run whose analysis stage
fails with message "perr" carries the wrapped analysis error. -/
theorem C5_witness :
    (Run envAnalyzeFail expA sysA syA).execRes.Err
      = some ("failed to process output: " ++ "perr") :=
  (C5_error_wrapping envAnalyzeFail expA sysA syA).2.2.2.2.2.2.2 "perr"
    (by decide) (by decide)

/-- Counterexample for C5 as stated: on the host-install failure path the
returned error is the fixed stage message and does not contain the
underlying failure's message "boom". -/
theorem C5_cx_install_error_message_dropped :
    envInstFail.installOnHost.Err = some "boom"
    ∧ (Run envInstFail expA sysA syA).execRes.Err
        = some "failed to install MPI on host"
    ∧ substrB "boom" "failed to install MPI on host" = false := by
  refine ⟨by decide, by decide, by decide⟩

/-- C6: if the launcher was invoked and reported a logically failing
outcome (`Pass = false`), `Run` returns that outcome and the launcher's
raw result unchanged, invokes no diagnostic persister, and performs no
output analysis. -/
theorem C6_logical_failure_returns_immediately (env : Env)
    (exp : ContainerConfig) (sysCfg : SysConfig) (syConfig : MPIToolConfig)
    (hl : (Run env exp sysCfg syConfig).launchCalls = 1)
    (hp : env.launcherOutcome.Pass = false) :
    (Run env exp sysCfg syConfig).expRes = env.launcherOutcome
    ∧ (Run env exp sysCfg syConfig).execRes = env.launcherExec
    ∧ (Run env exp sysCfg syConfig).saveCalls = 0
    ∧ (Run env exp sysCfg syConfig).analyzeCalls = 0 := by
  rcases run_cases env exp sysCfg syConfig with
    ⟨e, hcfg, hrun⟩ | ⟨hc, cc, e, hcfg, hload, hrun⟩ |
    ⟨hc, cc, e, hcfg, hload, hinst, hrun⟩ |
    ⟨hc, cc, hcfg, hload, hinst, hpriv, hpath, hrun⟩ |
    ⟨hc, cc, e, hcfg, hload, hinst, hpriv, hpath, hnc, hrun⟩ |
    ⟨hc, cc, hcfg, hload, hinst, hpriv, hpath, hnc, hrun⟩ |
    ⟨hc, cc, e, hcfg, hload, hinst, hpriv, hpull, hrun⟩ |
    ⟨hc, cc, hcfg, hload, hinst, hpriv, hpull, hrun⟩
  · rw [hrun] at hl; simp at hl
  · rw [hrun] at hl; simp at hl
  · rw [hrun] at hl; simp at hl
  · rw [hrun]
    exact runLaunchPhase_logical_failure env (if env.isPersistent then 0 else 1)
      0 0 0 0 0 hp
  · rw [hrun] at hl; simp at hl
  · rw [hrun]
    obtain ⟨h1, h2, h3, h4⟩ := runLaunchPhase_logical_failure env
      (if env.isPersistent then 0 else 1)
      (createNewContainer env cc exp sysCfg).mpiContainerCalls
      (createNewContainer env cc exp sysCfg).deffileCalls
      (createNewContainer env cc exp sysCfg).createImageCalls 0
      (createNewContainer env cc exp sysCfg).saveCalls hp
    exact ⟨h1, h2, h3.trans (createNewContainer_saveCalls_of_ok env cc exp sysCfg hnc), h4⟩
  · rw [hrun] at hl; simp at hl
  · rw [hrun]
    exact runLaunchPhase_logical_failure env (if env.isPersistent then 0 else 1)
      0 0 0 1 0 hp

/-- Witness for C6: a concrete run whose launcher reports a logical
failure; applying the theorem at it discharges both hypotheses by
evaluation. -/
theorem C6_witness :
    (Run envLaunchFail expA sysA syA).expRes = envLaunchFail.launcherOutcome
    ∧ (Run envLaunchFail expA sysA syA).execRes = envLaunchFail.launcherExec
    ∧ (Run envLaunchFail expA sysA syA).saveCalls = 0
    ∧ (Run envLaunchFail expA sysA syA).analyzeCalls = 0 :=
  C6_logical_failure_returns_immediately envLaunchFail expA sysA syA
    (by decide) (by decide)

/-- C10: `GetMPIImplemFromExperiments` fails exactly on the empty list
(with the error "no experiment"); on any non-empty list it returns the
first experiment's host MPI implementation, and its result does not depend
on the tail of the list. -/
theorem C10_first_host_implementation (l : List ContainerConfig) :
    ((∃ msg, GetMPIImplemFromExperiments l = .error msg) ↔ l = [])
    ∧ (∀ x t, GetMPIImplemFromExperiments (x :: t) = .ok x.HostMPI)
    ∧ (∀ x t t', GetMPIImplemFromExperiments (x :: t)
        = GetMPIImplemFromExperiments (x :: t')) := by
  refine ⟨?_, fun x t => rfl, fun x t t' => rfl⟩
  cases l <;> simp [GetMPIImplemFromExperiments]

end experiments
